import Mathlib

/-!
Shallow embedding of the JobFy scrape orchestration and extraction pipeline.

The definitions below are transcribed from the repository sources:
  - `backend/main.py`   (FastAPI routes, `run_scrape` coordinator, tag stats)
  - `backend/models.py` (`Job`, `ScrapeLog` rows)
  - `scrapers/base.py`  (`JobOffer` dataclass, `BaseScraper.scrape`)
  - `scrapers/remoteok.py` (API-backed adapter)
  - `scrapers/linkedin.py`, `scrapers/indeed.py` (markup fallback chains)
  - `config.py` (`SITES_CONFIG`)

External capabilities (HTTP fetch, BeautifulSoup selector evaluation, the
SQLAlchemy session) are modelled as explicit parameters: a fetch result is an
`Option`/`Except` value, a selector evaluation is the list of nodes it returns,
and the jobs table is an explicit list of rows threaded through the coordinator.
The comma-split of the `sites` query parameter is likewise taken as the list of
raw comma-separated segments.
-/

namespace JobFy

/-- Offer record produced by an adapter (`scrapers/base.py`, dataclass
`JobOffer`); the last three fields carry the dataclass defaults. -/
structure JobOffer where
  job_title : String
  company : String
  tags : String
  apply_link : String
  location : String := "N/A"
  salary : String := "N/A"
  source : String := "N/A"
  deriving Repr, DecidableEq

/-- Persisted job row (`backend/models.py`, class `Job`); `id` and
`created_at` are assigned by the database and play no role in the claims. -/
structure Job where
  job_title : String
  company : String
  location : String
  salary : String
  tags : String
  apply_link : String
  source : String
  deriving Repr, DecidableEq

/-- Scrape-run audit row (`backend/models.py`, class `ScrapeLog`), with the
column defaults; timestamps are abstract `Nat` ticks. -/
structure ScrapeLog where
  keyword : String := ""
  location : String := ""
  sites : String := ""
  jobs_found : Nat := 0
  status : String := "pending"
  completed_at : Option Nat := none
  error_message : Option String := none
  deriving Repr, DecidableEq

/-- Keys of the `SCRAPERS` mapping in `backend/main.py`. -/
def scraperKeys : List String :=
  ["remoteok", "infojobs", "linkedin", "indeed", "tecnoempleo"]

/-! ### Python string primitives

The Python string methods the sources rely on (`strip`, `lower`,
`split(",")`, the substring operator `in`) are modelled as structural
functions on the character list, so that every definition evaluates inside
the kernel. -/

/-- Whitespace characters removed by Python's `strip` (ASCII subset). -/
def isPySpace (c : Char) : Bool :=
  c == ' ' || c == '\t' || c == '\n' || c == '\r' || c == '\x0b' || c == '\x0c'

/-- Python `str.strip()`: remove leading and trailing whitespace. -/
def pyStrip (s : String) : String :=
  String.mk (((s.toList.dropWhile isPySpace).reverse.dropWhile isPySpace).reverse)

/-- Python `str.lower()`: lowercase each character (ASCII letters). -/
def pyLower (s : String) : String :=
  String.mk (s.toList.map Char.toLower)

/-- Worker for `pySplitComma`: the accumulator holds the current segment
reversed. -/
def splitCommaAux : List Char → List Char → List (List Char)
  | [], cur => [cur.reverse]
  | c :: rest, cur =>
    if c == ',' then cur.reverse :: splitCommaAux rest []
    else splitCommaAux rest (c :: cur)

/-- Splitting on the comma character, as Python's `split(",")`. -/
def pySplitComma (s : String) : List String :=
  (splitCommaAux s.toList []).map String.mk

/-- Occurrence test behind Python's substring operator `in`. -/
def subOccurs (pat : List Char) : List Char → Bool
  | [] => pat.isEmpty
  | l@(_ :: rest) => pat.isPrefixOf l || subOccurs pat rest

/-- Python's `pat in s` on strings. -/
def strContains (s pat : String) : Bool :=
  subOccurs pat.toList s.toList

/-- The normalization `[s.strip().lower() for s in sites.split(",") if s.strip()]` from
`start_scrape` in `backend/main.py`, over the raw comma-separated segments. -/
def parseSites (rawSegments : List String) : List String :=
  rawSegments.filterMap fun s =>
    let t := pyStrip s
    if t.isEmpty then none else some (pyLower t)

/-- Outcome of the `POST /api/scrape` route: an `HTTPException` with a status
code, or the created pending `ScrapeLog` plus the parsed site list. -/
inductive StartResult where
  | rejected (status_code : Nat) (detail : String)
  | accepted (log : ScrapeLog) (site_list : List String)
  deriving Repr, DecidableEq

/-- The `ScrapeLog(...)` constructed by `start_scrape` (status "pending",
`sites` re-joined with commas, no completion data yet). -/
def mkPendingLog (keyword location : String) (site_list : List String) : ScrapeLog :=
  { keyword := keyword, location := location,
    sites := String.intercalate "," site_list, status := "pending" }

/-- Route handler `start_scrape` from `backend/main.py`: normalize the sites parameter,
reject an empty list or unknown names with a 400, otherwise append a pending
`ScrapeLog` to the registry and return it. -/
def start_scrape (rawSites : List String) (keyword location : String)
    (registry : List ScrapeLog) : List ScrapeLog × StartResult :=
  let site_list := parseSites rawSites
  if site_list.isEmpty then
    (registry, .rejected 400 "No sites specified")
  else
    let invalid_sites := site_list.filter fun s => !scraperKeys.contains s
    if !invalid_sites.isEmpty then
      (registry, .rejected 400
        ("Invalid sites: " ++ String.intercalate ", " invalid_sites))
    else
      let log := mkPendingLog keyword location site_list
      (registry ++ [log], .accepted log site_list)

/-- Conversion of a scraped `JobOffer` into the `Job(...)` row added by
`run_scrape`. -/
def jobOfOffer (o : JobOffer) : Job :=
  { job_title := o.job_title, company := o.company, location := o.location,
    salary := o.salary, tags := o.tags, apply_link := o.apply_link,
    source := o.source }

/-- The duplicate probe `db.query(Job).filter(Job.apply_link == ...).first()`
of `run_scrape`: exact, case-sensitive string equality on `apply_link`. -/
def linkExists (db : List Job) (link : String) : Bool :=
  db.any fun j => j.apply_link == link

/-- Body of the per-offer loop of `run_scrape`: an offer whose `apply_link`
already occurs among the rows (stored or added earlier in this run) is
skipped, otherwise a row is appended and the running total incremented. -/
def insertOfferStep (acc : List Job × Nat) (job : JobOffer) : List Job × Nat :=
  if linkExists acc.1 job.apply_link then acc
  else (acc.1 ++ [jobOfOffer job], acc.2 + 1)

/-- The per-offer loop of `run_scrape` over one adapter's offers. -/
def insertOffers (db : List Job) (total : Nat) (jobs : List JobOffer) :
    List Job × Nat :=
  jobs.foldl insertOfferStep (db, total)

/-- Body of the per-site loop of `run_scrape`.  The adapter invocation is the
external effect, modelled by `env : site name → error message or offers`.
An unknown site appends an error entry and continues; a throwing adapter
appends `"site: message"` and continues; a successful one feeds its offers
to the dedup-insert loop. -/
def scrapeSiteStep (env : String → Except String (List JobOffer))
    (acc : List Job × Nat × List String) (site_name : String) :
    List Job × Nat × List String :=
  match acc with
  | (rows, total, errors) =>
    if !scraperKeys.contains site_name then
      (rows, total, errors ++ ["Unknown site: " ++ site_name])
    else
      match env site_name with
      | .error e => (rows, total, errors ++ [site_name ++ ": " ++ e])
      | .ok jobs =>
        match insertOffers rows total jobs with
        | (rows2, total2) => (rows2, total2, errors)

/-- The per-site loop of `run_scrape`: rows, running total and error list
accumulated over the requested sites. -/
def scrapeSites (env : String → Except String (List JobOffer))
    (sites : List String) (db : List Job) : List Job × Nat × List String :=
  sites.foldl (scrapeSiteStep env) (db, 0, [])

/-- Coordinator `run_scrape` from `backend/main.py`, for a log that was found by id.  The
status is first set to "running" (committed), then the sites are processed;
`finalCommitError` models the final `db.commit()` raising (the only
statement of the outer `try` that can fail once each site's work is inside
the inner `try`): `none` reaches the "completed" branch, `some e` the
`except` branch that stamps the run "failed".  Returns the rows, the final
log and the sequence of committed log snapshots, in commit order. -/
def run_scrape (env : String → Except String (List JobOffer))
    (finalCommitError : Option String) (now : Nat) (sites : List String)
    (db : List Job) (log : ScrapeLog) :
    List Job × ScrapeLog × List ScrapeLog :=
  let running := { log with status := "running" }
  match scrapeSites env sites db with
  | (rows, total, errors) =>
    match finalCommitError with
    | none =>
      let done :=
        { running with
            status := "completed", jobs_found := total, completed_at := some now,
            error_message :=
              if errors.isEmpty then running.error_message
              else some (String.intercalate "; " errors) }
      (rows, done, [running, done])
    | some e =>
      let failed :=
        { running with
            status := "failed", jobs_found := total,
            error_message := some e, completed_at := some now }
      (rows, failed, [running, failed])

/-! ### Tag aggregation (`get_stats` in `backend/main.py`) -/

/-- One `tag_counts[tag] = tag_counts.get(tag, 0) + 1` step on an
insertion-ordered association list (a Python dict preserves insertion
order). -/
def bumpTag (counts : List (String × Nat)) (tag : String) :
    List (String × Nat) :=
  if counts.any (fun p => p.1 == tag) then
    counts.map fun p => if p.1 == tag then (p.1, p.2 + 1) else p
  else counts ++ [(tag, 1)]

/-- Processing of one row's `tags` column: skipped when falsy (empty),
otherwise split on ",", each segment stripped, empty segments skipped. -/
def addRowTags (counts : List (String × Nat)) (tags : String) :
    List (String × Nat) :=
  if tags.isEmpty then counts
  else
    (pySplitComma tags).foldl
      (fun acc seg =>
        let tag := pyStrip seg
        if tag.isEmpty then acc else bumpTag acc tag)
      counts

/-- The tag-frequency map built by `get_stats` over all rows' `tags`. -/
def tag_counts (rows : List String) : List (String × Nat) :=
  rows.foldl addRowTags []

/-- Stable descending insertion: the new element goes after every element of
count greater than or equal to its own, matching the stability of Python's
`sorted(key=count, reverse=True)`. -/
def insertByCountDesc (x : String × Nat) :
    List (String × Nat) → List (String × Nat)
  | [] => [x]
  | y :: ys => if y.2 < x.2 then x :: y :: ys else y :: insertByCountDesc x ys

/-- The sort `sorted(tag_counts.items(), key=count, reverse=True)`: stable sort by
descending count. -/
def pySortDesc (l : List (String × Nat)) : List (String × Nat) :=
  l.foldl (fun acc x => insertByCountDesc x acc) []

/-- Field `top_tags` of `get_stats`: the counts sorted by descending frequency,
truncated to 15. -/
def top_tags (rows : List String) : List (String × Nat) :=
  (pySortDesc (tag_counts rows)).take 15

/-! ### Markup fallback chains (`linkedin.py`, `indeed.py`) -/

/-- First non-empty candidate list of a fallback chain. -/
def firstNonEmpty {α : Type} : List (List α) → List α
  | [] => []
  | c :: rest => if c.isEmpty then firstNonEmpty rest else c

/-- Selector cascade of `LinkedInScraper.parse_job_listings`: three selector
evaluations tried in order, each used only when the earlier ones returned no
node. -/
def linkedin_job_cards {α : Type} (sel1 sel2 sel3 : List α) : List α :=
  let cards := sel1
  let cards := if cards.isEmpty then sel2 else cards
  let cards := if cards.isEmpty then sel3 else cards
  cards

/-- Selector cascade of `IndeedScraper.parse_job_listings` (four selectors). -/
def indeed_job_cards {α : Type} (sel1 sel2 sel3 sel4 : List α) : List α :=
  let cards := sel1
  let cards := if cards.isEmpty then sel2 else cards
  let cards := if cards.isEmpty then sel3 else cards
  let cards := if cards.isEmpty then sel4 else cards
  cards

/-- The card loop of `LinkedInScraper.parse_job_listings`: per-card extraction
(the BeautifulSoup field probing is the external capability `extract`),
keeping the non-`None` results. -/
def linkedin_parse_job_listings {α : Type} (sel1 sel2 sel3 : List α)
    (extract : α → Option JobOffer) : List JobOffer :=
  (linkedin_job_cards sel1 sel2 sel3).filterMap extract

/-- The card loop of `IndeedScraper.parse_job_listings`. -/
def indeed_parse_job_listings {α : Type} (sel1 sel2 sel3 sel4 : List α)
    (extract : α → Option JobOffer) : List JobOffer :=
  (indeed_job_cards sel1 sel2 sel3 sel4).filterMap extract

/-! ### RemoteOK API adapter (`scrapers/remoteok.py`) -/

/-- One decoded entry of the RemoteOK JSON feed, keeping exactly the keys read
by `_parse_api_response` and `_extract_job`; `legal` records whether the
`"legal"` key is present (the feed's leading metadata entry), the other
fields are `none` when the key is absent. -/
structure RemoteOKItem where
  legal : Bool := false
  position : Option String := none
  company : Option String := none
  tags : Option (List String) := none
  slug : Option String := none
  url : Option String := none
  salary_min : Option Nat := none
  salary_max : Option Nat := none
  location : Option String := none
  deriving Repr, DecidableEq

/-- Python truthiness of the numeric salary bounds read with `item.get`:
falsy when the key is absent or the value is zero. -/
def truthyNat : Option Nat → Bool
  | none => false
  | some n => n != 0

/-- Digit grouping on a reversed digit list: a comma after every third
digit. -/
def insertCommasRev : List Char → List Char
  | a :: b :: c :: d :: rest => a :: b :: c :: ',' :: insertCommasRev (d :: rest)
  | l => l

/-- Python's thousands-separator formatting of a natural, as in
`f"$\x7bsalary_min:,\x7d"`. -/
def commaFmt (n : Nat) : String :=
  String.mk (insertCommasRev (toString n).toList.reverse).reverse

/-- The salary computation of `_extract_job`: a dollar range when both bounds
are truthy, a `"+"`-suffixed lower bound when only `salary_min` is truthy,
otherwise the sentinel `"N/A"`. -/
def remoteokSalary (salary_min salary_max : Option Nat) : String :=
  if truthyNat salary_min && truthyNat salary_max then
    "$" ++ commaFmt (salary_min.getD 0) ++ " - $" ++ commaFmt (salary_max.getD 0)
  else if truthyNat salary_min then
    "$" ++ commaFmt (salary_min.getD 0) ++ "+"
  else "N/A"

/-- Method `RemoteOKScraper._extract_job`: `None` when the position is missing or
empty, otherwise an offer with the documented per-field defaults; the
`source` field is left at the dataclass default. -/
def remoteok_extract_job (base_url : String) (item : RemoteOKItem) :
    Option JobOffer :=
  let job_title := item.position.getD ""
  if job_title.isEmpty then none
  else
    let tags_list := item.tags.getD []
    let slug := item.slug.getD ""
    let loc := item.location.getD "Remote"
    some
      { job_title := job_title,
        company := item.company.getD "N/A",
        tags := if tags_list.isEmpty then "N/A"
                else String.intercalate ", " tags_list,
        apply_link := if slug.isEmpty then item.url.getD "N/A"
                      else base_url ++ "/" ++ slug,
        location := if loc.isEmpty then "Remote" else loc,
        salary := remoteokSalary item.salary_min item.salary_max }

/-- The keyword filter of `_parse_api_response`: with a non-empty lowered
keyword, keep the offer only when the keyword occurs in the lowered
`"title company tags"` text. -/
def keywordKeeps (keyword_lower : String) (job : JobOffer) : Bool :=
  if keyword_lower.isEmpty then true
  else
    strContains
      (pyLower (job.job_title ++ " " ++ job.company ++ " " ++ job.tags))
      keyword_lower

/-- Method `RemoteOKScraper._parse_api_response`: skip entries carrying the `"legal"`
key, extract each remaining entry, apply the optional keyword filter, and
truncate the accumulated list to 50. -/
def remoteok_parse_api_response (base_url : String) (data : List RemoteOKItem)
    (keyword : String) : List JobOffer :=
  let keyword_lower := pyLower keyword
  let jobs := data.foldl
    (fun jobs item =>
      if item.legal then jobs
      else
        match remoteok_extract_job base_url item with
        | none => jobs
        | some job =>
          if keywordKeeps keyword_lower job then jobs ++ [job] else jobs)
    []
  jobs.take 50

/-! ### Whole-adapter runs (`BaseScraper.scrape`, `RemoteOKScraper.scrape`) -/

/-- The `for job in jobs: job.source = self.name` loop that both scrape
methods run over the freshly parsed offers. -/
def tagSource (name : String) (jobs : List JobOffer) : List JobOffer :=
  jobs.map fun j => { j with source := name }

/-- Method `BaseScraper.scrape`: abort with no offers when required authentication
fails or the page download fails, otherwise parse the page and stamp each
offer's `source` with the site display name. -/
def base_scrape (requires_auth login_ok : Bool) (name : String)
    (html : Option String) (parse_job_listings : String → List JobOffer) :
    List JobOffer :=
  if requires_auth && !login_ok then []
  else
    match html with
    | none => []
    | some page => tagSource name (parse_job_listings page)

/-- Method `RemoteOKScraper.scrape`: an API error yields no offers, otherwise the
parsed offers are stamped with the display name "RemoteOK" from
`SITES_CONFIG`. -/
def remoteok_scrape (apiResponse : Except String (List RemoteOKItem))
    (keyword : String) : List JobOffer :=
  match apiResponse with
  | .error _ => []
  | .ok data =>
    tagSource "RemoteOK"
      (remoteok_parse_api_response "https://remoteok.com" data keyword)

/-! ### Concrete fixtures used by the example-based statements -/

/-- Leading metadata entry of the RemoteOK feed: it carries the `"legal"`
key and no offer fields. -/
def rokMeta : RemoteOKItem := { legal := true }

/-- Feed entry whose title and tags contain "python". -/
def rokItem1 : RemoteOKItem :=
  { position := some "Python Developer", company := some "Acme",
    tags := some ["python", "django"], slug := some "acme-python-dev-1",
    salary_min := some 50000, salary_max := some 90000 }

/-- Feed entry unrelated to "python". -/
def rokItem2 : RemoteOKItem :=
  { position := some "Rust Engineer", company := some "Beta",
    tags := some ["rust"], slug := some "beta-rust-2" }

/-- Another feed entry unrelated to "python". -/
def rokItem3 : RemoteOKItem :=
  { position := some "Go Developer", company := some "Gamma",
    tags := some ["golang"], slug := some "gamma-go-3" }

/-- The offer `_extract_job` produces from `rokItem1`. -/
def rokJob1 : JobOffer :=
  { job_title := "Python Developer", company := "Acme",
    tags := "python, django",
    apply_link := "https://remoteok.com/acme-python-dev-1",
    location := "Remote", salary := "$50,000 - $90,000" }

/-- A stored sink row used by the deduplication example. -/
def sampleRow : Job :=
  { job_title := "Python Developer", company := "Acme", location := "Remote",
    salary := "N/A", tags := "python",
    apply_link := "https://remoteok.com/acme-python-dev-1",
    source := "RemoteOK" }

/-- A freshly scraped offer whose `apply_link` equals `sampleRow`'s. -/
def sampleOffer : JobOffer :=
  { job_title := "Python Dev (repost)", company := "Acme", tags := "python",
    apply_link := "https://remoteok.com/acme-python-dev-1" }

/-! ## Helper lemmas -/

/-- Membership through the stable descending insertion. -/
theorem mem_insertByCountDesc (x y : String × Nat) (l : List (String × Nat)) :
    y ∈ insertByCountDesc x l ↔ y = x ∨ y ∈ l := by
  induction l with
  | nil => simp [insertByCountDesc]
  | cons z zs ih =>
    rw [insertByCountDesc]
    by_cases h : z.2 < x.2
    · simp only [if_pos h, List.mem_cons]
    · simp only [if_neg h, List.mem_cons, ih]
      tauto

/-- The stable descending insertion preserves the descending-count order. -/
theorem insertByCountDesc_pairwise (x : String × Nat) (l : List (String × Nat))
    (h : l.Pairwise fun a b => b.2 ≤ a.2) :
    (insertByCountDesc x l).Pairwise fun a b => b.2 ≤ a.2 := by
  induction l with
  | nil => simp [insertByCountDesc]
  | cons z zs ih =>
    rw [insertByCountDesc]
    rcases List.pairwise_cons.mp h with ⟨hz, hzs⟩
    by_cases hlt : z.2 < x.2
    · rw [if_pos hlt]
      refine List.pairwise_cons.mpr ⟨?_, h⟩
      intro b hb
      rcases List.mem_cons.mp hb with rfl | hb
      · exact le_of_lt hlt
      · exact le_trans (hz b hb) (le_of_lt hlt)
    · rw [if_neg hlt]
      refine List.pairwise_cons.mpr ⟨?_, ih hzs⟩
      intro b hb
      rcases (mem_insertByCountDesc x b zs).mp hb with rfl | hb
      · exact Nat.le_of_not_lt hlt
      · exact hz b hb

/-- The Python sort produces a list ordered by descending count. -/
theorem pySortDesc_pairwise (l : List (String × Nat)) :
    (pySortDesc l).Pairwise fun a b => b.2 ≤ a.2 := by
  have main : ∀ (l acc : List (String × Nat)),
      acc.Pairwise (fun a b => b.2 ≤ a.2) →
      (l.foldl (fun acc x => insertByCountDesc x acc) acc).Pairwise
        fun a b => b.2 ≤ a.2 := by
    intro l
    induction l with
    | nil => intro acc h; simpa using h
    | cons x xs ih =>
      intro acc h
      exact ih _ (insertByCountDesc_pairwise x acc h)
  simpa [pySortDesc] using main l [] (by simp)

/-- A failed `linkExists` probe means the link is absent from the rows. -/
theorem linkExists_false_not_mem (db : List Job) (l : String)
    (h : linkExists db l = false) : l ∉ db.map Job.apply_link := by
  intro hmem
  rcases List.mem_map.mp hmem with ⟨j, hj, rfl⟩
  unfold linkExists at h
  exact List.any_eq_false.mp h j hj (by simp)

/-- One dedup-insert step preserves distinctness of the stored links. -/
theorem insertOfferStep_nodup (acc : List Job × Nat) (job : JobOffer)
    (h : (acc.1.map Job.apply_link).Nodup) :
    ((insertOfferStep acc job).1.map Job.apply_link).Nodup := by
  unfold insertOfferStep
  split
  · exact h
  · rename_i hfalse
    have hnot : job.apply_link ∉ acc.1.map Job.apply_link :=
      linkExists_false_not_mem _ _ (by simpa using hfalse)
    simp [List.nodup_append, h, hnot, jobOfOffer]

/-- The dedup-insert loop preserves distinctness of the stored links. -/
theorem insertOffers_nodup (jobs : List JobOffer) (db : List Job) (total : Nat)
    (h : (db.map Job.apply_link).Nodup) :
    (((insertOffers db total jobs).1).map Job.apply_link).Nodup := by
  suffices main : ∀ (jobs : List JobOffer) (acc : List Job × Nat),
      (acc.1.map Job.apply_link).Nodup →
      ((jobs.foldl insertOfferStep acc).1.map Job.apply_link).Nodup by
    exact main jobs (db, total) h
  intro jobs
  induction jobs with
  | nil => intro acc h; simpa using h
  | cons j rest ih =>
    intro acc h
    exact ih _ (insertOfferStep_nodup acc j h)

/-- The per-site loop preserves distinctness of the stored links. -/
theorem scrapeSites_nodup (env : String → Except String (List JobOffer))
    (sites : List String) (db : List Job)
    (h : (db.map Job.apply_link).Nodup) :
    (((scrapeSites env sites db).1).map Job.apply_link).Nodup := by
  suffices main : ∀ (sites : List String) (acc : List Job × Nat × List String),
      (acc.1.map Job.apply_link).Nodup →
      ((sites.foldl (scrapeSiteStep env) acc).1.map Job.apply_link).Nodup by
    exact main sites (db, 0, []) h
  intro sites
  induction sites with
  | nil => intro acc h; simpa using h
  | cons s rest ih =>
    intro acc h
    refine ih _ ?_
    rcases acc with ⟨rows, total, errors⟩
    simp only [scrapeSiteStep]
    split
    · exact h
    · split
      · exact h
      · rename_i jobs heq
        exact insertOffers_nodup jobs rows total h

/-- The rows a run leaves behind are exactly those of its per-site loop. -/
theorem run_scrape_fst (env : String → Except String (List JobOffer))
    (fce : Option String) (now : Nat) (sites : List String) (db : List Job)
    (log : ScrapeLog) :
    (run_scrape env fce now sites db log).1 = (scrapeSites env sites db).1 := by
  unfold run_scrape
  rcases h : scrapeSites env sites db with ⟨rows, total, errors⟩
  cases fce <;> simp

/-- With every requested site known and its adapter throwing, the per-site
loop inserts nothing and collects one error entry per source, in order. -/
theorem scrapeSites_all_fail (env : String → Except String (List JobOffer))
    (msgs : String → String) (sites : List String) (db : List Job)
    (hknown : ∀ s ∈ sites, scraperKeys.contains s = true)
    (hfail : ∀ s ∈ sites, env s = Except.error (msgs s)) :
    scrapeSites env sites db =
      (db, 0, sites.map fun s => s ++ ": " ++ msgs s) := by
  suffices main : ∀ (sites : List String) (rows : List Job) (total : Nat)
      (errors : List String),
      (∀ s ∈ sites, scraperKeys.contains s = true) →
      (∀ s ∈ sites, env s = Except.error (msgs s)) →
      sites.foldl (scrapeSiteStep env) (rows, total, errors) =
        (rows, total, errors ++ sites.map fun s => s ++ ": " ++ msgs s) by
    simpa using main sites db 0 [] hknown hfail
  intro sites
  induction sites with
  | nil => intro rows total errors _ _; simp
  | cons s rest ih =>
    intro rows total errors hknown hfail
    have hk : scraperKeys.contains s = true := hknown s (by simp)
    have hf : env s = Except.error (msgs s) := hfail s (by simp)
    simp only [List.foldl_cons, scrapeSiteStep, hk, hf, Bool.not_true,
      Bool.false_eq_true, if_false]
    rw [ih _ _ _ (fun x hx => hknown x (List.mem_cons_of_mem s hx))
      (fun x hx => hfail x (List.mem_cons_of_mem s hx))]
    simp

/-! ## Claims -/

/-- Claim C5, counterexample: aggregating the tag rows "Python, react",
"python , Go", "" counts the tag "Python" once, not twice as the claim
states — the frequency map is keyed case-sensitively, so "python" from the
second row lands under a separate key. -/
theorem tag_aggregation_case_sensitive_cex :
    (tag_counts ["Python, react", "python , Go", ""]).lookup "Python" ≠
      some 2 := by
  decide

/-- Claim C5 (amended): tag aggregation splits each offer's comma-joined tag
string on commas, trims whitespace, drops empty segments, and counts
frequencies case-sensitively with case preserved; the top list is ordered
by descending count, ties kept in first-seen order, and truncated to 15.
In particular the rows "Python, react", "python , Go", "" yield the counts
Python:1, react:1, python:1, Go:1, and their top list keeps that first-seen
order. -/
theorem tag_aggregation_behavior :
    tag_counts ["Python, react", "python , Go", ""] =
      [("Python", 1), ("react", 1), ("python", 1), ("Go", 1)] ∧
    top_tags ["Python, react", "python , Go", ""] =
      [("Python", 1), ("react", 1), ("python", 1), ("Go", 1)] ∧
    (∀ rows : List String,
      (top_tags rows).Pairwise fun a b => b.2 ≤ a.2) ∧
    (∀ rows : List String, (top_tags rows).length ≤ 15) := by
  refine ⟨by decide, by decide, ?_, ?_⟩
  · intro rows
    exact (pySortDesc_pairwise _).sublist (List.take_sublist _ _)
  · intro rows
    exact List.length_take_le _ _

/-- Claim C6: markup extraction consults the ordered candidate-selector chain
and uses exactly the nodes of the first selector yielding at least one
node; when selector one yields no node and selector two yields two nodes,
extraction processes selector two's two nodes, both for the LinkedIn
(three-selector) and the Indeed (four-selector) chains, and in general the
chosen candidates are the first non-empty selector result. -/
theorem fallback_chain_first_nonempty {α : Type} (s1 s2 s3 s4 : List α)
    (extract : α → Option JobOffer)
    (h1 : s1 = []) (h2 : s2.length = 2) :
    linkedin_job_cards s1 s2 s3 = s2 ∧
    indeed_job_cards s1 s2 s3 s4 = s2 ∧
    linkedin_parse_job_listings s1 s2 s3 extract = s2.filterMap extract ∧
    (∀ t1 t2 t3 : List α,
      linkedin_job_cards t1 t2 t3 = firstNonEmpty [t1, t2, t3]) ∧
    (∀ t1 t2 t3 t4 : List α,
      indeed_job_cards t1 t2 t3 t4 = firstNonEmpty [t1, t2, t3, t4]) := by
  subst h1
  have hne : s2.isEmpty = false := by
    cases s2 with
    | nil => simp at h2
    | cons a tl => rfl
  refine ⟨?_, ?_, ?_, ?_, ?_⟩
  · simp [linkedin_job_cards, hne]
  · simp [indeed_job_cards, hne]
  · simp [linkedin_parse_job_listings, linkedin_job_cards, hne]
  · intro t1 t2 t3
    simp only [linkedin_job_cards, firstNonEmpty]
    by_cases e1 : t1.isEmpty <;> by_cases e2 : t2.isEmpty <;>
      by_cases e3 : t3.isEmpty <;> simp_all [List.isEmpty_iff]
  · intro t1 t2 t3 t4
    simp only [indeed_job_cards, firstNonEmpty]
    by_cases e1 : t1.isEmpty <;> by_cases e2 : t2.isEmpty <;>
      by_cases e3 : t3.isEmpty <;> by_cases e4 : t4.isEmpty <;>
      simp_all [List.isEmpty_iff]

/-- Witness for the fallback-chain claim at a concrete chain: the first
selector is empty, the second holds two nodes, and those two nodes are the
ones used. -/
theorem fallback_chain_first_nonempty_witness :
    linkedin_job_cards ([] : List Nat) [1, 2] [3] = [1, 2] :=
  (fallback_chain_first_nonempty [] [1, 2] [3] [4] (fun _ => none)
    rfl rfl).1

/-- Claim C7: the API-backed extraction skips the known non-offer metadata
entry (the one carrying the "legal" key), applies the optional
case-insensitive substring keyword filter across title+company+tags before
emission, and caps output at 50; with one metadata entry followed by three
offer entries and a keyword matching only one of them, exactly one offer is
returned. -/
theorem remoteok_parse_filters_and_caps (base_url : String)
    (item : RemoteOKItem) (data : List RemoteOKItem) (keyword : String)
    (hmeta : item.legal = true) :
    remoteok_parse_api_response base_url (item :: data) keyword =
      remoteok_parse_api_response base_url data keyword ∧
    (∀ d : List RemoteOKItem,
      (remoteok_parse_api_response base_url d keyword).length ≤ 50) ∧
    (remoteok_parse_api_response "https://remoteok.com"
        [rokMeta, rokItem1, rokItem2, rokItem3] "python").length = 1 := by
  refine ⟨?_, ?_, by decide⟩
  · simp [remoteok_parse_api_response, hmeta]
  · intro d
    exact List.length_take_le _ _

/-- Witness for the API-extraction claim: prefixing the metadata entry to a
concrete feed leaves extraction unchanged. -/
theorem remoteok_parse_filters_and_caps_witness :
    remoteok_parse_api_response "https://remoteok.com"
        (rokMeta :: [rokItem1]) "python" =
      remoteok_parse_api_response "https://remoteok.com" [rokItem1] "python" :=
  (remoteok_parse_filters_and_caps "https://remoteok.com" rokMeta [rokItem1]
    "python" rfl).1

/-- Claim C8, counterexample: with the lower salary bound absent and the
upper bound 50000 — a bound is present in the entry — the code still
yields the sentinel "N/A", and likewise for a zero lower bound; the claim's
"sentinel exactly when no bound is present" therefore fails. -/
theorem salary_sentinel_cex :
    remoteokSalary none (some 50000) = "N/A" ∧
    remoteokSalary (some 0) (some 50000) = "N/A" ∧
    (some 50000 : Option Nat) ≠ none := by
  exact ⟨by decide, by decide, by decide⟩

/-- Claim C8 (amended): the extracted salary is the formatted dollar range
exactly when both bounds are present with nonzero (Python-truthy) values;
the "at least" string exactly when the lower bound is truthy and the upper
bound is absent or zero; and the sentinel "N/A" exactly when the lower
bound is absent or zero, regardless of the upper bound. -/
theorem salary_formatting_amended (salary_min salary_max : Option Nat) :
    (truthyNat salary_min = true → truthyNat salary_max = true →
      remoteokSalary salary_min salary_max =
        "$" ++ commaFmt (salary_min.getD 0) ++ " - $" ++
          commaFmt (salary_max.getD 0)) ∧
    (truthyNat salary_min = true → truthyNat salary_max = false →
      remoteokSalary salary_min salary_max =
        "$" ++ commaFmt (salary_min.getD 0) ++ "+") ∧
    (truthyNat salary_min = false →
      remoteokSalary salary_min salary_max = "N/A") := by
  refine ⟨?_, ?_, ?_⟩
  · intro h1 h2
    simp [remoteokSalary, h1, h2]
  · intro h1 h2
    simp [remoteokSalary, h1, h2]
  · intro h1
    simp [remoteokSalary, h1]

/-- Witness for the amended salary claim at both bounds present and
nonzero. -/
theorem salary_formatting_amended_witness :
    remoteokSalary (some 50000) (some 90000) = "$50,000 - $90,000" :=
  ((salary_formatting_amended (some 50000) (some 90000)).1 rfl rfl).trans
    (by decide)

/-- Offers stamped by the `job.source = self.name` loop carry that name. -/
theorem mem_tagSource (name : String) (jobs : List JobOffer) (j : JobOffer)
    (h : j ∈ tagSource name jobs) : j.source = name := by
  rcases List.mem_map.mp h with ⟨a, _, rfl⟩
  rfl

/-- Claim C9: per-node extraction leaves the offer's `source` at the
dataclass sentinel "N/A"; it is the whole-adapter scrape that stamps every
returned offer's `source` with the adapter display name — the generic
`BaseScraper.scrape` with its site name, the RemoteOK scrape with
"RemoteOK". -/
theorem source_tagging (base_url : String) (item : RemoteOKItem)
    (job : JobOffer) (requires_auth login_ok : Bool) (name : String)
    (html : Option String) (parse : String → List JobOffer)
    (api : Except String (List RemoteOKItem)) (keyword : String)
    (hextract : remoteok_extract_job base_url item = some job) :
    job.source = "N/A" ∧
    (∀ j ∈ base_scrape requires_auth login_ok name html parse,
      j.source = name) ∧
    (∀ j ∈ remoteok_scrape api keyword, j.source = "RemoteOK") := by
  refine ⟨?_, ?_, ?_⟩
  · unfold remoteok_extract_job at hextract
    dsimp only at hextract
    split at hextract
    · exact absurd hextract (by simp)
    · injection hextract with h
      rw [← h]
  · intro j hj
    unfold base_scrape at hj
    split at hj
    · simp at hj
    · match html, hj with
      | some page, hj => exact mem_tagSource _ _ _ hj
  · intro j hj
    unfold remoteok_scrape at hj
    match api, hj with
    | .ok data, hj => exact mem_tagSource _ _ _ hj

/-- Witness for the source-tagging claim: the offer extracted from a concrete
feed entry still carries the sentinel source. -/
theorem source_tagging_witness : rokJob1.source = "N/A" :=
  (source_tagging "https://remoteok.com" rokItem1 rokJob1 false false "X"
    none (fun _ => []) (Except.error "e") "" (by decide)).1

/-- Claim C1: the sink holds at most one row per distinct `apply_link`
(exact, case-sensitive key): a run started on a sink whose links are
pairwise distinct leaves them pairwise distinct — within a run and, by
re-application, across runs — and an offer whose `apply_link` already
exists among the records is processed as a no-op: it is not persisted
again and the offers-found count is unchanged. -/
theorem sink_applyLink_unique (env : String → Except String (List JobOffer))
    (fce : Option String) (now : Nat) (sites : List String) (db : List Job)
    (log : ScrapeLog) (total : Nat) (job : JobOffer) (rest : List JobOffer)
    (hnodup : (db.map Job.apply_link).Nodup)
    (hdup : linkExists db job.apply_link = true) :
    (((run_scrape env fce now sites db log).1).map Job.apply_link).Nodup ∧
    insertOffers db total (job :: rest) = insertOffers db total rest := by
  constructor
  · rw [run_scrape_fst]
    exact scrapeSites_nodup env sites db hnodup
  · simp [insertOffers, insertOfferStep, hdup]

/-- Witness for the deduplication claim: re-submitting an offer whose link is
already stored is a no-op of the insert loop. -/
theorem sink_applyLink_unique_witness :
    insertOffers [sampleRow] 0 [sampleOffer] = insertOffers [sampleRow] 0 [] :=
  (sink_applyLink_unique (fun _ => Except.ok []) none 0 [] [sampleRow] {} 0
    sampleOffer [] (by decide) (by decide)).2

/-- Claim C2: when every adapter of a run throws, the run still ends
"completed" — never "failed" — with zero offers found and an error summary
holding one `"site: message"` entry per failed source, `;`-joined in order;
and with the coordinator itself healthy the terminal status is "completed"
for every adapter behavior, so failing sources alone never fail the run. -/
theorem all_sources_fail_run_completed
    (env : String → Except String (List JobOffer)) (msgs : String → String)
    (now : Nat) (sites : List String) (db : List Job) (log : ScrapeLog)
    (hknown : ∀ s ∈ sites, scraperKeys.contains s = true)
    (hfail : ∀ s ∈ sites, env s = Except.error (msgs s))
    (hne : sites ≠ []) :
    (run_scrape env none now sites db log).2.1.status = "completed" ∧
    (run_scrape env none now sites db log).2.1.jobs_found = 0 ∧
    (run_scrape env none now sites db log).2.1.error_message =
      some (String.intercalate "; "
        (sites.map fun s => s ++ ": " ++ msgs s)) ∧
    ∀ env2 : String → Except String (List JobOffer),
      (run_scrape env2 none now sites db log).2.1.status = "completed" := by
  have hs := scrapeSites_all_fail env msgs sites db hknown hfail
  have hmapne : (sites.map fun s => s ++ ": " ++ msgs s).isEmpty = false := by
    rcases hsites : sites with _ | ⟨a, tl⟩
    · exact absurd hsites hne
    · rfl
  refine ⟨?_, ?_, ?_, ?_⟩
  · unfold run_scrape
    rw [hs]
  · unfold run_scrape
    rw [hs]
  · unfold run_scrape
    rw [hs]
    simp [hmapne]
  · intro env2
    unfold run_scrape
    rcases h2 : scrapeSites env2 sites db with ⟨rows, t, errs⟩
    simp

/-- Witness for the all-sources-fail claim on a one-source run whose adapter
always throws. -/
theorem all_sources_fail_run_completed_witness :
    (run_scrape (fun _ => Except.error "boom") none 7 ["remoteok"] []
      {}).2.1.status = "completed" :=
  (all_sources_fail_run_completed (fun _ => Except.error "boom")
    (fun _ => "boom") 7 ["remoteok"] [] {} (by decide)
    (fun s _ => rfl) (by decide)).1

/-- Claim C3: a start request whose normalized site list is empty, or
contains a name that is not a known adapter key, is rejected synchronously
with a 400 error and the run registry is left unchanged — no pending record
is created. -/
theorem start_scrape_rejects_invalid (rawSites : List String)
    (keyword location : String) (registry : List ScrapeLog)
    (h : parseSites rawSites = [] ∨
      ∃ s ∈ parseSites rawSites, scraperKeys.contains s = false) :
    (start_scrape rawSites keyword location registry).1 = registry ∧
    ∃ detail, (start_scrape rawSites keyword location registry).2 =
      StartResult.rejected 400 detail := by
  rcases h with h | ⟨s, hs, hbad⟩
  · refine ⟨by simp [start_scrape, h], "No sites specified", ?_⟩
    simp [start_scrape, h]
  · have hne : (parseSites rawSites).isEmpty = false := by
      rcases hp : parseSites rawSites with _ | ⟨a, tl⟩
      · rw [hp] at hs
        simp at hs
      · rfl
    have hmem : s ∈ (parseSites rawSites).filter
        fun x => !scraperKeys.contains x :=
      List.mem_filter.mpr ⟨hs, by rw [hbad]; rfl⟩
    have hinv : ((parseSites rawSites).filter
        fun x => !scraperKeys.contains x).isEmpty = false := by
      rcases hq : (parseSites rawSites).filter
          fun x => !scraperKeys.contains x with _ | ⟨a, tl⟩
      · rw [hq] at hmem
        simp at hmem
      · rfl
    have step : start_scrape rawSites keyword location registry =
        (registry, StartResult.rejected 400
          ("Invalid sites: " ++ String.intercalate ", "
            ((parseSites rawSites).filter fun x => !scraperKeys.contains x))) := by
      unfold start_scrape
      dsimp only
      rw [hne, hinv]
      simp
    rw [step]
    exact ⟨rfl, _, rfl⟩

/-- Witness for the rejection claim: one known and one unknown site name. -/
theorem start_scrape_rejects_invalid_witness :
    (start_scrape ["remoteok", "bogus"] "" "" []).1 = ([] : List ScrapeLog) ∧
    ∃ detail, (start_scrape ["remoteok", "bogus"] "" "" []).2 =
      StartResult.rejected 400 detail :=
  start_scrape_rejects_invalid ["remoteok", "bogus"] "" "" []
    (Or.inr ⟨"bogus", by decide, by decide⟩)

/-- Claim C4: a record is created "pending" with no completion timestamp;
an executed run commits exactly the status history
pending → running → completed or pending → running → failed, reaching a
terminal status at most once, and at every committed snapshot the
completion timestamp is set if and only if the status is terminal. -/
theorem run_status_lifecycle (env : String → Except String (List JobOffer))
    (fce : Option String) (now : Nat) (sites : List String) (db : List Job)
    (log : ScrapeLog)
    (hpending : log.status = "pending") (hdone : log.completed_at = none) :
    ((log :: (run_scrape env fce now sites db log).2.2).map ScrapeLog.status =
        ["pending", "running", "completed"] ∨
      (log :: (run_scrape env fce now sites db log).2.2).map ScrapeLog.status =
        ["pending", "running", "failed"]) ∧
    (∀ l ∈ log :: (run_scrape env fce now sites db log).2.2,
      (l.status = "completed" ∨ l.status = "failed") ↔
        l.completed_at ≠ none) ∧
    ((log :: (run_scrape env fce now sites db log).2.2).filter
        (fun l => l.status == "completed" || l.status == "failed")).length
      ≤ 1 ∧
    (∀ (raw : List String) (k loc : String) (reg : List ScrapeLog)
        (lg : ScrapeLog) (sl : List String),
      (start_scrape raw k loc reg).2 = StartResult.accepted lg sl →
      lg.status = "pending" ∧ lg.completed_at = none) := by
  have hstart : ∀ (raw : List String) (k loc : String) (reg : List ScrapeLog)
      (lg : ScrapeLog) (sl : List String),
      (start_scrape raw k loc reg).2 = StartResult.accepted lg sl →
      lg.status = "pending" ∧ lg.completed_at = none := by
    intro raw k loc reg lg sl hacc
    unfold start_scrape at hacc
    dsimp only at hacc
    split at hacc
    · simp at hacc
    · split at hacc
      · simp at hacc
      · rw [StartResult.accepted.injEq] at hacc
        rw [← hacc.1]
        exact ⟨rfl, rfl⟩
  rcases hscr : scrapeSites env sites db with ⟨rows, total, errors⟩
  cases fce with
  | none =>
    refine ⟨Or.inl ?_, ?_, ?_, hstart⟩
    · simp [run_scrape, hscr, hpending]
    · intro l hl
      simp only [run_scrape, hscr] at hl
      rcases List.mem_cons.mp hl with rfl | hl
      · simp [hpending, hdone]
      · rcases List.mem_cons.mp hl with rfl | hl
        · simp [ScrapeLog.status, hdone]
        · rcases List.mem_cons.mp hl with rfl | hl
          · simp
          · simp at hl
    · simp [run_scrape, hscr, hpending]
  | some e =>
    refine ⟨Or.inr ?_, ?_, ?_, hstart⟩
    · simp [run_scrape, hscr, hpending]
    · intro l hl
      simp only [run_scrape, hscr] at hl
      rcases List.mem_cons.mp hl with rfl | hl
      · simp [hpending, hdone]
      · rcases List.mem_cons.mp hl with rfl | hl
        · simp [ScrapeLog.status, hdone]
        · rcases List.mem_cons.mp hl with rfl | hl
          · simp
          · simp at hl
    · simp [run_scrape, hscr, hpending]

/-- Witness for the lifecycle claim: a fresh default record run with a
healthy coordinator commits pending → running → completed. -/
theorem run_status_lifecycle_witness :
    (({} : ScrapeLog) ::
        (run_scrape (fun _ => Except.ok []) none 3 [] [] {}).2.2).map
          ScrapeLog.status = ["pending", "running", "completed"] ∨
    (({} : ScrapeLog) ::
        (run_scrape (fun _ => Except.ok []) none 3 [] [] {}).2.2).map
          ScrapeLog.status = ["pending", "running", "failed"] :=
  (run_status_lifecycle (fun _ => Except.ok []) none 3 [] [] {} rfl rfl).1

/-- Claim C10: the run-start endpoint normalizes the comma-separated sites
parameter before validation — dropping empty segments (stray commas),
trimming whitespace and lowercasing — so source names match
case-insensitively: "RemoteOK" selects the "remoteok" adapter, and extra
commas or surrounding spaces alone never cause a rejection. -/
theorem sites_normalization (raw : List String) (keyword location : String)
    (registry : List ScrapeLog) :
    parseSites (raw ++ [""]) = parseSites raw ∧
    parseSites ("" :: raw) = parseSites raw ∧
    parseSites ["  RemoteOK ", "", " linkedin"] = ["remoteok", "linkedin"] ∧
    (start_scrape ["RemoteOK"] keyword location registry).2 =
      StartResult.accepted (mkPendingLog keyword location ["remoteok"])
        ["remoteok"] := by
  have hem : parseSites [""] = [] := by decide
  have happ : ∀ l1 l2 : List String,
      parseSites (l1 ++ l2) = parseSites l1 ++ parseSites l2 := by
    intro l1 l2
    simp [parseSites, List.filterMap_append]
  refine ⟨?_, ?_, by decide, ?_⟩
  · rw [happ, hem, List.append_nil]
  · rw [show ("" :: raw) = [""] ++ raw from rfl, happ, hem, List.nil_append]
  · have hro : parseSites ["RemoteOK"] = ["remoteok"] := by decide
    have hfil : (["remoteok"].filter fun s => !scraperKeys.contains s) = [] := by
      decide
    unfold start_scrape
    dsimp only
    rw [hro, hfil]
    simp

end JobFy
